import Mathlib

/-!
Verification of the per-request execution engine of the perron service
client (src/lib/request.ts), as a shallow embedding.

The engine is event driven: the transport (Node http/https) delivers
events (socket assignment, lookup, connect, response headers, body data,
end of stream, errors, timer firings) and the engine reacts, recording
timing checkpoints, arming timers and settling a promise exactly once.
We embed it as a step function on an explicit machine state, one case per
event handler in the source.

Transport and platform model (everything outside the repository):
  * A timer registration (socket.setTimeout / requestObject.setTimeout
    with callback) arms a one-shot callback; an armed callback may fire
    at any moment the environment chooses, and firing consumes it.  This
    matches the way the repository test-suite drives the code (each
    sinon-stubbed setTimeout callback is invoked independently).  The
    source never deregisters a callback, so a callback stays armed until
    it fires.
  * handlers registered with once fire at most one time (we keep an
    armed flag); handlers registered with on fire at every event.
  * Promise resolution is idempotent: resolve/reject after the promise
    has settled leaves the settled outcome unchanged.
  * JavaScript objects are passed by reference: the single mutable
    Timings record of an execution is shared between the machine state
    and any published result that carries it.  We model the reference by
    keeping the record in the state and reading it through the state
    (MachineState.publishedTimings); TimingPhases values are constructed
    fresh at publication, hence stored as snapshots.
  * zlib unzip is an abstract codec (a function from bytes to bytes or
    an error); piping a stream through it is modelled by accumulating
    the raw bytes and decoding at end of stream.
  * Buffer.concat(chunks, totalLength) truncates to totalLength; we
    model it as take (its over-length padding behaviour is unspecified
    in Node and unreachable under the invariant proved below).
  * Buffer.prototype.toString("utf8") is a total UTF-8 decoder mapping
    invalid bytes to U+FFFD; utf8Decode below implements it.
-/

namespace Perron

/-- Default read timeout of the source (DEFAULT_READ_TIMEOUT). -/
def DEFAULT_READ_TIMEOUT : Nat := 2000

/-- Default connection timeout of the source (DEFAULT_CONNECTION_TIMEOUT). -/
def DEFAULT_CONNECTION_TIMEOUT : Nat := 1000

/-- JavaScript a || d on an optional number: undefined and 0 are falsy. -/
def jsOr (a : Option Nat) (d : Nat) : Nat :=
  match a with
  | none => d
  | some n => if n = 0 then d else n

/-- JavaScript statusCode || 0 (undefined and 0 both give 0). -/
def jsOrZero (a : Option Nat) : Nat :=
  match a with
  | none => 0
  | some n => n

/-- The five optional checkpoint timestamps (interface Timings). -/
structure Timings where
  lookup : Option Nat := none
  socket : Option Nat := none
  connect : Option Nat := none
  response : Option Nat := none
  «end» : Option Nat := none
  deriving DecidableEq, Repr

/-- The six derived phase durations (interface TimingPhases). -/
structure TimingPhases where
  wait : Option Nat
  dns : Option Int
  tcp : Option Int
  firstByte : Option Int
  download : Option Int
  total : Option Nat
  deriving DecidableEq, Repr

/-- subtract from the source: a - b when both are numbers, else undefined. -/
def subtract (a b : Option Nat) : Option Int :=
  match a, b with
  | some x, some y => some ((x : Int) - (y : Int))
  | _, _ => none

/-- makeTimingPhases from the source, field by field. -/
def makeTimingPhases (t : Timings) : TimingPhases :=
  { wait := t.socket
    dns := subtract t.lookup t.socket
    tcp := subtract t.connect t.lookup
    firstByte := subtract t.response t.connect
    download := subtract t.«end» t.response
    total := t.«end» }

/-! ### Path resolution (options preprocessing of request) -/

/-- querystring.stringify on an explicit list of key/value pairs
(Node encodes values to strings; we take them already stringified). -/
def stringifyQuery (q : List (String × String)) : String :=
  String.intercalate "&" (q.map (fun p => p.fst ++ "=" ++ p.snd))

/-- The three option fields the path-resolution block of request reads;
an Option field models presence of the key on the options object. -/
structure PathOptions where
  path : Option String
  pathname : Option String
  query : Option (List (String × String))
  deriving DecidableEq, Repr

/-- Path resolution block of request: when a pathname is present and no
explicit path is, the path becomes the pathname, with a question mark and
the stringified query appended whenever a query key is present. -/
def resolvePath (o : PathOptions) : Option String :=
  match o.path, o.pathname with
  | some p, _ => some p
  | none, some pn =>
    match o.query with
    | some q => some (pn ++ "?" ++ stringifyQuery q)
    | none => some pn
  | none, none => none

/-! ### UTF-8 decoding (Buffer.toString("utf8")) -/

/-- Is b a UTF-8 continuation byte (10xxxxxx). -/
def isCont (b : Nat) : Bool := 128 ≤ b && b < 192

/-- Fuel-driven UTF-8 decoder; each step consumes at least one byte so
fuel equal to the length of the input suffices.  Invalid bytes decode to
U+FFFD, as in Node. -/
def utf8Go : Nat → List Nat → List Char
  | 0, _ => []
  | _ + 1, [] => []
  | fuel + 1, b :: rest =>
    if b < 128 then Char.ofNat b :: utf8Go fuel rest
    else if b < 192 then Char.ofNat 65533 :: utf8Go fuel rest
    else if b < 224 then
      match rest with
      | b2 :: rest2 =>
        if isCont b2 then
          Char.ofNat ((b - 192) * 64 + (b2 - 128)) :: utf8Go fuel rest2
        else Char.ofNat 65533 :: utf8Go fuel rest
      | [] => [Char.ofNat 65533]
    else if b < 240 then
      match rest with
      | b2 :: b3 :: rest3 =>
        if isCont b2 && isCont b3 then
          Char.ofNat ((b - 224) * 4096 + (b2 - 128) * 64 + (b3 - 128)) ::
            utf8Go fuel rest3
        else Char.ofNat 65533 :: utf8Go fuel rest
      | _ => Char.ofNat 65533 :: utf8Go fuel rest
    else if b < 248 then
      match rest with
      | b2 :: b3 :: b4 :: rest4 =>
        if isCont b2 && isCont b3 && isCont b4 then
          Char.ofNat
              ((b - 240) * 262144 + (b2 - 128) * 4096 + (b3 - 128) * 64 +
                (b4 - 128)) ::
            utf8Go fuel rest4
        else Char.ofNat 65533 :: utf8Go fuel rest
      | _ => Char.ofNat 65533 :: utf8Go fuel rest
    else Char.ofNat 65533 :: utf8Go fuel rest

/-- Buffer.toString("utf8") over a byte list. -/
def utf8Decode (l : List Nat) : String := String.mk (utf8Go l.length l)

/-- Buffer.concat(chunks, totalLength): concatenation truncated to the
stated total length. -/
def bufConcat (chunks : List (List Nat)) (totalLength : Nat) : List Nat :=
  chunks.flatten.take totalLength

/-! ### The request machine -/

/-- The per-execution configuration the handlers read: the timing flag,
the two resolved timeout durations and the target host. -/
structure ReqConfig where
  timing : Bool
  connectionTimeout : Nat
  readTimeout : Nat
  host : String
  deriving DecidableEq, Repr

/-- Abstract zlib unzip codec. -/
structure Codec where
  decompress : List Nat → Except String (List Nat)

/-- Which stream feeds the body aggregator: the raw response or the
response piped through the unzip decoder. -/
inductive BodyMode
  | raw
  | unzip
  deriving DecidableEq, Repr

/-- Per-response aggregation context: the captured headers/status and
the chunk accumulator with its running byte-length counter. -/
structure RespCtx where
  headers : List (String × String)
  statusCode : Option Nat
  mode : BodyMode
  chunks : List (List Nat)
  bufferLength : Nat
  deriving DecidableEq, Repr

/-- A published ServiceClientResponse.  Its timings field is a reference
to the shared Timings record (flag hasTimings, read through
MachineState.publishedTimings); timingPhases is a value snapshot. -/
structure PublishedResponse where
  statusCode : Nat
  headers : List (String × String)
  body : String
  hasTimings : Bool
  timingPhases : Option TimingPhases
  deriving DecidableEq, Repr

/-- A published rejection: either a plain Error or an ErrorWithTimings;
in the latter case the timings field references the shared record and
timingPhases is a value snapshot. -/
structure PublishedError where
  message : String
  isErrorWithTimings : Bool
  timingPhases : Option TimingPhases
  deriving DecidableEq, Repr

/-- The settled outcome of the promise. -/
inductive Outcome
  | resolved (r : PublishedResponse)
  | rejected (e : PublishedError)
  deriving DecidableEq, Repr

/-- The whole per-execution state. -/
structure MachineState where
  settled : Option Outcome
  timings : Timings
  socketHandled : Bool
  connTimerArmed : Bool
  lookupListenerArmed : Bool
  connectListenerArmed : Bool
  readTimerArmed : Bool
  destroyCalls : Nat
  resp : Option RespCtx
  deriving DecidableEq, Repr

/-- The state right after the Promise executor ran (all listeners of the
pre-socket phase installed, nothing observed yet). -/
def initState : MachineState :=
  { settled := none
    timings := {}
    socketHandled := false
    connTimerArmed := false
    lookupListenerArmed := false
    connectListenerArmed := false
    readTimerArmed := false
    destroyCalls := 0
    resp := none }

/-- The events the installed handlers can receive. -/
inductive Event
  | socketAssigned (connecting : Bool) (now : Nat)
  | lookupEvt (now : Nat)
  | connectEvt (now : Nat)
  | connTimerFire
  | readTimerFire
  | responseEvt (headers : List (String × String)) (statusCode : Option Nat)
      (now : Nat)
  | dataEvt (chunk : List Nat)
  | endEvt (now : Nat)
  | errorEvt (msg : String)
  | streamErrorEvt (msg : String)
  deriving DecidableEq, Repr

/-- The connection-timeout message of the source. -/
def connMsg (cfg : ReqConfig) : String :=
  "Could not connect within " ++ toString cfg.connectionTimeout ++ " ms to " ++
    cfg.host

/-- The read-timeout message of the source. -/
def readMsg (cfg : ReqConfig) : String :=
  "Failed to read data within " ++ toString cfg.readTimeout ++ " ms from " ++
    cfg.host

/-- The reject function of the executor: when timing is on it wraps the
error into an ErrorWithTimings carrying the shared timings reference and
a fresh phases snapshot; settling is idempotent. -/
def doReject (cfg : ReqConfig) (s : MachineState) (msg : String) :
    MachineState :=
  let err : PublishedError :=
    if cfg.timing then
      { message := msg
        isErrorWithTimings := true
        timingPhases := some (makeTimingPhases s.timings) }
    else
      { message := msg, isErrorWithTimings := false, timingPhases := none }
  match s.settled with
  | none => { s with settled := some (Outcome.rejected err) }
  | some _ => s

/-- resolve of the executor: idempotent settling. -/
def doResolve (s : MachineState) (r : PublishedResponse) : MachineState :=
  match s.settled with
  | none => { s with settled := some (Outcome.resolved r) }
  | some _ => s

/-- Exact-match lookup in the (already lowercased) header map. -/
def getHeader (hs : List (String × String)) (k : String) : Option String :=
  (hs.find? (fun p => p.fst == k)).map (fun p => p.snd)

/-- Encoding dispatch of the response handler: pipe through the unzip
decoder exactly when content-encoding is gzip or deflate. -/
def bodyModeOf (hs : List (String × String)) : BodyMode :=
  if getHeader hs "content-encoding" == some "gzip" ||
      getHeader hs "content-encoding" == some "deflate" then
    BodyMode.unzip
  else BodyMode.raw

/-- Timing bookkeeping of the response handler: backfill lookup/connect
from socket when never observed, then mark response. -/
def backfillAndMark (t : Timings) (now : Nat) : Timings :=
  { t with
    lookup := if t.lookup.isNone then t.socket else t.lookup
    connect := if t.connect.isNone then t.socket else t.connect
    response := some now }

/-- The bytes the end-of-stream handler decodes to text: the tracked
concatenation, run through the unzip codec when the response was piped. -/
def decodeBody (codec : Codec) (ctx : RespCtx) : Except String (List Nat) :=
  match ctx.mode with
  | BodyMode.raw => Except.ok (bufConcat ctx.chunks ctx.bufferLength)
  | BodyMode.unzip => codec.decompress (bufConcat ctx.chunks ctx.bufferLength)

/-- One event handler invocation, translated handler by handler from
request in src/lib/request.ts. -/
def step (cfg : ReqConfig) (codec : Codec) (s : MachineState) :
    Event → MachineState
  | Event.socketAssigned connecting now =>
    if s.socketHandled then s
    else if connecting then
      { s with
        socketHandled := true
        timings :=
          if cfg.timing then { s.timings with socket := some now }
          else s.timings
        connTimerArmed := true
        lookupListenerArmed := cfg.timing
        connectListenerArmed := true }
    else
      { s with
        socketHandled := true
        timings :=
          if cfg.timing then
            { s.timings with
              socket := some now, lookup := some now, connect := some now }
          else s.timings
        readTimerArmed := true }
  | Event.lookupEvt now =>
    if s.lookupListenerArmed then
      { s with
        lookupListenerArmed := false
        timings := { s.timings with lookup := some now } }
    else s
  | Event.connectEvt now =>
    if s.connectListenerArmed then
      { s with
        connectListenerArmed := false
        timings :=
          if cfg.timing then { s.timings with connect := some now }
          else s.timings
        readTimerArmed := true }
    else s
  | Event.connTimerFire =>
    if s.connTimerArmed then
      doReject cfg
        { s with connTimerArmed := false, destroyCalls := s.destroyCalls + 1 }
        (connMsg cfg)
    else s
  | Event.readTimerFire =>
    if s.readTimerArmed then
      doReject cfg
        { s with readTimerArmed := false, destroyCalls := s.destroyCalls + 1 }
        (readMsg cfg)
    else s
  | Event.responseEvt hs sc now =>
    { s with
      timings :=
        if cfg.timing then backfillAndMark s.timings now else s.timings
      resp :=
        some
          { headers := hs
            statusCode := sc
            mode := bodyModeOf hs
            chunks := []
            bufferLength := 0 } }
  | Event.dataEvt chunk =>
    match s.resp with
    | none => s
    | some ctx =>
      { s with
        resp :=
          some
            { ctx with
              chunks := ctx.chunks ++ [chunk]
              bufferLength := ctx.bufferLength + chunk.length } }
  | Event.endEvt now =>
    match s.resp with
    | none => s
    | some ctx =>
      match decodeBody codec ctx with
      | Except.error msg => doReject cfg s msg
      | Except.ok bytes =>
        doResolve
          { s with
            resp := some { ctx with chunks := [], bufferLength := 0 }
            timings :=
              if cfg.timing then { s.timings with «end» := some now }
              else s.timings }
          { statusCode := jsOrZero ctx.statusCode
            headers := ctx.headers
            body := utf8Decode bytes
            hasTimings := cfg.timing
            timingPhases :=
              if cfg.timing then
                some (makeTimingPhases { s.timings with «end» := some now })
              else none }
  | Event.errorEvt msg => doReject cfg s msg
  | Event.streamErrorEvt msg =>
    match s.resp with
    | none => s
    | some _ => doReject cfg s msg

/-- Run the machine over a whole event trace. -/
def run (cfg : ReqConfig) (codec : Codec) (evs : List Event) : MachineState :=
  evs.foldl (step cfg codec) initState

/-- The timings field of the published result, read by reference through
the live shared Timings record. -/
def MachineState.publishedTimings (s : MachineState) : Option Timings :=
  match s.settled with
  | some (Outcome.resolved r) => if r.hasTimings then some s.timings else none
  | some (Outcome.rejected e) =>
    if e.isErrorWithTimings then some s.timings else none
  | none => none

/-- A codec that decompresses nothing; used to instantiate executions in
which the codec is never consulted. -/
def trivialCodec : Codec := { decompress := fun _ => Except.error "unused" }

/-! ### Helper lemmas -/


@[simp] theorem doReject_resp (cfg : ReqConfig) (s : MachineState)
    (m : String) : (doReject cfg s m).resp = s.resp := by
  cases h : s.settled <;> simp [doReject, h]

@[simp] theorem doReject_timings (cfg : ReqConfig) (s : MachineState)
    (m : String) : (doReject cfg s m).timings = s.timings := by
  cases h : s.settled <;> simp [doReject, h]

@[simp] theorem doReject_destroyCalls (cfg : ReqConfig) (s : MachineState)
    (m : String) : (doReject cfg s m).destroyCalls = s.destroyCalls := by
  cases h : s.settled <;> simp [doReject, h]

@[simp] theorem doReject_socketHandled (cfg : ReqConfig) (s : MachineState)
    (m : String) : (doReject cfg s m).socketHandled = s.socketHandled := by
  cases h : s.settled <;> simp [doReject, h]

@[simp] theorem doReject_connTimerArmed (cfg : ReqConfig) (s : MachineState)
    (m : String) : (doReject cfg s m).connTimerArmed = s.connTimerArmed := by
  cases h : s.settled <;> simp [doReject, h]

@[simp] theorem doReject_readTimerArmed (cfg : ReqConfig) (s : MachineState)
    (m : String) : (doReject cfg s m).readTimerArmed = s.readTimerArmed := by
  cases h : s.settled <;> simp [doReject, h]

@[simp] theorem doReject_lookupListenerArmed (cfg : ReqConfig)
    (s : MachineState) (m : String) :
    (doReject cfg s m).lookupListenerArmed = s.lookupListenerArmed := by
  cases h : s.settled <;> simp [doReject, h]

@[simp] theorem doReject_connectListenerArmed (cfg : ReqConfig)
    (s : MachineState) (m : String) :
    (doReject cfg s m).connectListenerArmed = s.connectListenerArmed := by
  cases h : s.settled <;> simp [doReject, h]

@[simp] theorem doResolve_resp (s : MachineState) (r : PublishedResponse) :
    (doResolve s r).resp = s.resp := by
  cases h : s.settled <;> simp [doResolve, h]

@[simp] theorem doResolve_timings (s : MachineState) (r : PublishedResponse) :
    (doResolve s r).timings = s.timings := by
  cases h : s.settled <;> simp [doResolve, h]

@[simp] theorem doResolve_destroyCalls (s : MachineState)
    (r : PublishedResponse) : (doResolve s r).destroyCalls = s.destroyCalls := by
  cases h : s.settled <;> simp [doResolve, h]

@[simp] theorem doResolve_socketHandled (s : MachineState)
    (r : PublishedResponse) :
    (doResolve s r).socketHandled = s.socketHandled := by
  cases h : s.settled <;> simp [doResolve, h]

@[simp] theorem doResolve_connTimerArmed (s : MachineState)
    (r : PublishedResponse) :
    (doResolve s r).connTimerArmed = s.connTimerArmed := by
  cases h : s.settled <;> simp [doResolve, h]

@[simp] theorem doResolve_readTimerArmed (s : MachineState)
    (r : PublishedResponse) :
    (doResolve s r).readTimerArmed = s.readTimerArmed := by
  cases h : s.settled <;> simp [doResolve, h]

@[simp] theorem doResolve_lookupListenerArmed (s : MachineState)
    (r : PublishedResponse) :
    (doResolve s r).lookupListenerArmed = s.lookupListenerArmed := by
  cases h : s.settled <;> simp [doResolve, h]

@[simp] theorem doResolve_connectListenerArmed (s : MachineState)
    (r : PublishedResponse) :
    (doResolve s r).connectListenerArmed = s.connectListenerArmed := by
  cases h : s.settled <;> simp [doResolve, h]

theorem doReject_settled_of_settled (cfg : ReqConfig) (s : MachineState)
    (m : String) (o : Outcome) (h : s.settled = some o) :
    (doReject cfg s m).settled = some o := by
  simp [doReject, h]

theorem doResolve_settled_of_settled (s : MachineState)
    (r : PublishedResponse) (o : Outcome) (h : s.settled = some o) :
    (doResolve s r).settled = some o := by
  simp [doResolve, h]

theorem doReject_settled_ne_none (cfg : ReqConfig) (s : MachineState)
    (m : String) : (doReject cfg s m).settled ≠ none := by
  cases h : s.settled <;> simp [doReject, h]

theorem doResolve_settled_ne_none (s : MachineState) (r : PublishedResponse) :
    (doResolve s r).settled ≠ none := by
  cases h : s.settled <;> simp [doResolve, h]

theorem doReject_settled_of_pending (cfg : ReqConfig) (s : MachineState)
    (m : String) (h : s.settled = none) :
    (doReject cfg s m).settled =
      some (Outcome.rejected
        (if cfg.timing then
          { message := m
            isErrorWithTimings := true
            timingPhases := some (makeTimingPhases s.timings) }
         else
          { message := m, isErrorWithTimings := false, timingPhases := none })) := by
  simp [doReject, h]

theorem doResolve_settled_of_pending (s : MachineState)
    (r : PublishedResponse) (h : s.settled = none) :
    (doResolve s r).settled = some (Outcome.resolved r) := by
  simp [doResolve, h]

theorem step_settled_of_settled (cfg : ReqConfig) (codec : Codec)
    (s : MachineState) (e : Event) (o : Outcome) (h : s.settled = some o) :
    (step cfg codec s e).settled = some o := by
  cases e <;> simp only [step] <;> (repeat' split) <;>
    simp_all [doReject_settled_of_settled, doResolve_settled_of_settled,
      doReject, doResolve]

theorem foldl_inv (cfg : ReqConfig) (codec : Codec) (P : MachineState → Prop)
    (hstep : ∀ s e, P s → P (step cfg codec s e)) :
    ∀ evs s, P s → P (List.foldl (step cfg codec) s evs)
  | [], _, h => h
  | e :: evs, s, h => foldl_inv cfg codec P hstep evs _ (hstep s e h)

theorem run_append (cfg : ReqConfig) (codec : Codec) (evs : List Event)
    (e : Event) :
    run cfg codec (evs ++ [e]) = step cfg codec (run cfg codec evs) e := by
  simp [run]


theorem end_none_inv_step (cfg : ReqConfig) (codec : Codec) (s : MachineState)
    (e : Event) (h : s.settled = none → s.timings.«end» = none) :
    (step cfg codec s e).settled = none →
      (step cfg codec s e).timings.«end» = none := by
  cases e <;> simp only [step, backfillAndMark] <;> (repeat' split) <;>
    first
      | exact h
      | (intro hn; exact absurd hn (doReject_settled_ne_none _ _ _))
      | (intro hn; exact absurd hn (doResolve_settled_ne_none _ _))

theorem run_pending_end_none (cfg : ReqConfig) (codec : Codec)
    (evs : List Event) (h : (run cfg codec evs).settled = none) :
    (run cfg codec evs).timings.«end» = none :=
  foldl_inv cfg codec (fun s => s.settled = none → s.timings.«end» = none)
    (fun s e hs => end_none_inv_step cfg codec s e hs) evs initState
    (fun _ => rfl) h

theorem lenOK_step (cfg : ReqConfig) (codec : Codec) (s : MachineState)
    (e : Event)
    (h : ∀ ctx, s.resp = some ctx →
      ctx.bufferLength = ctx.chunks.flatten.length) :
    ∀ ctx, (step cfg codec s e).resp = some ctx →
      ctx.bufferLength = ctx.chunks.flatten.length := by
  intro ctx
  cases e with
  | socketAssigned c now =>
    simp only [step]; (repeat' split) <;> exact h ctx
  | lookupEvt now =>
    simp only [step]; (repeat' split) <;> exact h ctx
  | connectEvt now =>
    simp only [step]; (repeat' split) <;> exact h ctx
  | connTimerFire =>
    simp only [step]; (repeat' split) <;>
      (try simp only [doReject_resp]) <;> exact h ctx
  | readTimerFire =>
    simp only [step]; (repeat' split) <;>
      (try simp only [doReject_resp]) <;> exact h ctx
  | errorEvt msg =>
    simp only [step, doReject_resp]; exact h ctx
  | streamErrorEvt msg =>
    simp only [step]; (repeat' split) <;>
      (try simp only [doReject_resp]) <;> exact h ctx
  | responseEvt hs sc now =>
    simp only [step]
    intro hctx
    injection hctx with h2
    subst h2
    rfl
  | dataEvt chunk =>
    simp only [step]
    cases hr : s.resp with
    | none => simp [hr]
    | some old =>
      simp only [hr]
      intro hctx
      injection hctx with h2
      subst h2
      simp [h old hr, List.flatten_append]
  | endEvt now =>
    simp only [step]
    cases hr : s.resp with
    | none => simp [hr]
    | some old =>
      simp only [hr]
      cases hd : decodeBody codec old with
      | error msg => simp only [hd, doReject_resp]; exact h ctx
      | ok bytes =>
        simp only [hd, doResolve_resp]
        intro hctx
        injection hctx with h2
        subst h2
        rfl

theorem run_lenOK (cfg : ReqConfig) (codec : Codec) (evs : List Event) :
    ∀ ctx, (run cfg codec evs).resp = some ctx →
      ctx.bufferLength = ctx.chunks.flatten.length :=
  foldl_inv cfg codec
    (fun s => ∀ ctx, s.resp = some ctx →
      ctx.bufferLength = ctx.chunks.flatten.length)
    (fun s e hs => lenOK_step cfg codec s e hs) evs initState
    (by intro ctx hc; simp [initState] at hc)

theorem reused_inv_step (cfg : ReqConfig) (codec : Codec) (now : Nat)
    (s : MachineState) (e : Event)
    (h : s.socketHandled = true ∧ s.lookupListenerArmed = false ∧
      s.connectListenerArmed = false ∧ s.timings.socket = some now ∧
      s.timings.lookup = some now ∧ s.timings.connect = some now) :
    (step cfg codec s e).socketHandled = true ∧
      (step cfg codec s e).lookupListenerArmed = false ∧
      (step cfg codec s e).connectListenerArmed = false ∧
      (step cfg codec s e).timings.socket = some now ∧
      (step cfg codec s e).timings.lookup = some now ∧
      (step cfg codec s e).timings.connect = some now := by
  obtain ⟨h1, h2, h3, h4, h5, h6⟩ := h
  cases e <;> simp only [step, backfillAndMark] <;> (repeat' split) <;>
    simp_all

/-! ### Claim theorems -/


/-- C4: the derived TimingPhases satisfy wait = socket, dns = lookup
minus socket, tcp = connect minus lookup, firstByte = response minus
connect, download = end minus response, total = end; each difference
field is defined exactly when both of its input checkpoints are defined
and is absent (not zero) otherwise. -/
theorem C4_timing_phases (t : Timings) :
    (makeTimingPhases t).wait = t.socket ∧
    (makeTimingPhases t).total = t.«end» ∧
    (∀ l s, t.lookup = some l → t.socket = some s →
      (makeTimingPhases t).dns = some ((l : Int) - (s : Int))) ∧
    (t.lookup = none ∨ t.socket = none → (makeTimingPhases t).dns = none) ∧
    (∀ c l, t.connect = some c → t.lookup = some l →
      (makeTimingPhases t).tcp = some ((c : Int) - (l : Int))) ∧
    (t.connect = none ∨ t.lookup = none → (makeTimingPhases t).tcp = none) ∧
    (∀ r c, t.response = some r → t.connect = some c →
      (makeTimingPhases t).firstByte = some ((r : Int) - (c : Int))) ∧
    (t.response = none ∨ t.connect = none →
      (makeTimingPhases t).firstByte = none) ∧
    (∀ d r, t.«end» = some d → t.response = some r →
      (makeTimingPhases t).download = some ((d : Int) - (r : Int))) ∧
    (t.«end» = none ∨ t.response = none →
      (makeTimingPhases t).download = none) := by
  refine ⟨rfl, rfl, ?_, ?_, ?_, ?_, ?_, ?_, ?_, ?_⟩ <;>
    simp only [makeTimingPhases]
  · intro l s hl hs; simp [subtract, hl, hs]
  · rintro (h | h) <;> simp [subtract, h]
  · intro c l hc hl; simp [subtract, hc, hl]
  · rintro (h | h) <;> simp [subtract, h]
  · intro r c hr hc; simp [subtract, hr, hc]
  · rintro (h | h) <;> simp [subtract, h]
  · intro d r hd hr; simp [subtract, hd, hr]
  · rintro (h | h) <;> simp [subtract, h]

/-- C4 witness: concrete evaluation of the phase equations. -/
theorem C4_timing_phases_witness :
    (makeTimingPhases
        { lookup := some 30, socket := some 10, connect := none,
          response := some 100, «end» := none }).dns = some 20 ∧
    (makeTimingPhases
        { lookup := some 30, socket := some 10, connect := none,
          response := some 100, «end» := none }).tcp = none ∧
    (makeTimingPhases
        { lookup := some 30, socket := some 10, connect := none,
          response := some 100, «end» := none }).download = none :=
  ⟨(C4_timing_phases _).2.2.1 30 10 rfl rfl,
   (C4_timing_phases _).2.2.2.2.2.1 (Or.inl rfl),
   (C4_timing_phases _).2.2.2.2.2.2.2.2.2 (Or.inl rfl)⟩

/-- C7: with a pathname and no explicit path, the resolved request path
is the pathname, with a question mark and the stringified query appended
when a query object is given; an explicit path always wins unchanged;
pathname "/foo" with query a=1 resolves to "/foo?a=1". -/
theorem C7_path_resolution :
    (∀ pn q, resolvePath { path := none, pathname := some pn, query := some q }
      = some (pn ++ "?" ++ stringifyQuery q)) ∧
    (∀ pn, resolvePath { path := none, pathname := some pn, query := none }
      = some pn) ∧
    (∀ p pn q, resolvePath { path := some p, pathname := pn, query := q }
      = some p) ∧
    resolvePath
        { path := none, pathname := some "/foo", query := some [("a", "1")] }
      = some "/foo?a=1" := by
  refine ⟨fun pn q => rfl, fun pn => rfl, fun p pn q => rfl, ?_⟩
  rfl


/-- C8: with timing enabled, the response-headers handler records the
response checkpoint at the current instant and backfills lookup and
connect from the socket checkpoint when they were never independently
observed, leaving observed values alone; whenever socket is defined,
both are defined after the handler ran. -/
theorem C8_response_backfill (cfg : ReqConfig) (codec : Codec)
    (s : MachineState) (hs : List (String × String)) (sc : Option Nat)
    (now : Nat) (ht : cfg.timing = true) :
    (step cfg codec s (Event.responseEvt hs sc now)).timings.response =
        some now ∧
    (s.timings.lookup = none →
      (step cfg codec s (Event.responseEvt hs sc now)).timings.lookup =
        s.timings.socket) ∧
    (s.timings.lookup ≠ none →
      (step cfg codec s (Event.responseEvt hs sc now)).timings.lookup =
        s.timings.lookup) ∧
    (s.timings.connect = none →
      (step cfg codec s (Event.responseEvt hs sc now)).timings.connect =
        s.timings.socket) ∧
    (s.timings.connect ≠ none →
      (step cfg codec s (Event.responseEvt hs sc now)).timings.connect =
        s.timings.connect) ∧
    (∀ x, s.timings.socket = some x →
      (step cfg codec s (Event.responseEvt hs sc now)).timings.lookup ≠
          none ∧
        (step cfg codec s (Event.responseEvt hs sc now)).timings.connect ≠
          none) := by
  refine ⟨?_, ?_, ?_, ?_, ?_, ?_⟩
  · simp [step, ht, backfillAndMark]
  · intro h; simp [step, ht, backfillAndMark, h]
  · intro h
    simp [step, ht, backfillAndMark, Option.isNone_iff_eq_none, h]
  · intro h; simp [step, ht, backfillAndMark, h]
  · intro h
    simp [step, ht, backfillAndMark, Option.isNone_iff_eq_none, h]
  · intro x hx
    constructor <;>
      cases hl : s.timings.lookup <;> cases hc : s.timings.connect <;>
        simp [step, ht, backfillAndMark, hx, hl, hc]

/-- C8 witness: a concrete response event backfills lookup and connect
from socket and records the response checkpoint. -/
theorem C8_response_backfill_witness :
    (step { timing := true, connectionTimeout := 1000, readTimeout := 2000,
            host := "h" } trivialCodec
        { initState with timings := { socket := some 10 } }
        (Event.responseEvt [] (some 200) 30)).timings.response = some 30 ∧
    (step { timing := true, connectionTimeout := 1000, readTimeout := 2000,
            host := "h" } trivialCodec
        { initState with timings := { socket := some 10 } }
        (Event.responseEvt [] (some 200) 30)).timings.lookup = some 10 := by
  have h := C8_response_backfill
    { timing := true, connectionTimeout := 1000, readTimeout := 2000,
      host := "h" } trivialCodec
    { initState with timings := { socket := some 10 } } [] (some 200) 30 rfl
  exact ⟨h.1, h.2.1 rfl⟩

/-- C10: a successful completion built by the end-of-stream handler
carries statusCode zero when the response had no status code (undefined
or zero, both falsy); the published status code is always a number. -/
theorem C10_status_code_default (cfg : ReqConfig) (codec : Codec)
    (s : MachineState) (ctx : RespCtx) (now : Nat) (bytes : List Nat)
    (hr : s.resp = some ctx) (hp : s.settled = none)
    (hd : decodeBody codec ctx = Except.ok bytes) :
    ∃ r, (step cfg codec s (Event.endEvt now)).settled =
        some (Outcome.resolved r) ∧
      r.statusCode = jsOrZero ctx.statusCode ∧
      (ctx.statusCode = none → r.statusCode = 0) ∧
      (ctx.statusCode = some 0 → r.statusCode = 0) := by
  refine
    ⟨{ statusCode := jsOrZero ctx.statusCode
       headers := ctx.headers
       body := utf8Decode bytes
       hasTimings := cfg.timing
       timingPhases :=
         if cfg.timing then
           some (makeTimingPhases { s.timings with «end» := some now })
         else none }, ?_, rfl, ?_, ?_⟩
  · simp only [step, hr, hd]
    exact doResolve_settled_of_pending _ _ (by simp [hp])
  · intro h; simp [jsOrZero, h]
  · intro h; simp [jsOrZero, h]

/-- C10 witness: a response without a status code resolves with status
code zero. -/
theorem C10_status_code_default_witness :
    ∃ r, (step
          { timing := false, connectionTimeout := 1000, readTimeout := 2000,
            host := "h" }
          trivialCodec
          { initState with
            resp :=
              some
                { headers := [], statusCode := none, mode := BodyMode.raw,
                  chunks := [[104]], bufferLength := 1 } }
          (Event.endEvt 50)).settled = some (Outcome.resolved r) ∧
      r.statusCode = jsOrZero none ∧
      (none = (none : Option Nat) → r.statusCode = 0) ∧
      ((none : Option Nat) = some 0 → r.statusCode = 0) :=
  C10_status_code_default
    { timing := false, connectionTimeout := 1000, readTimeout := 2000,
      host := "h" }
    trivialCodec
    { initState with
      resp :=
        some
          { headers := [], statusCode := none, mode := BodyMode.raw,
            chunks := [[104]], bufferLength := 1 } }
    { headers := [], statusCode := none, mode := BodyMode.raw,
      chunks := [[104]], bufferLength := 1 }
    50 [104] rfl rfl rfl


/-- C1 (amended): once the promise of an execution has settled, every
later transport, stream or timer event leaves the settled outcome — the
published response or fault, including the TimingPhases snapshot it
carries — unchanged; resolution is never re-triggered. -/
theorem C1_settled_immutable (cfg : ReqConfig) (codec : Codec)
    (s : MachineState) (e : Event) (o : Outcome) (h : s.settled = some o) :
    (step cfg codec s e).settled = some o :=
  step_settled_of_settled cfg codec s e o h

/-- C1 witness: a transport error arriving on an already rejected
execution leaves the settled outcome unchanged. -/
theorem C1_settled_immutable_witness :
    (step
        { timing := false, connectionTimeout := 1000, readTimeout := 2000,
          host := "h" }
        trivialCodec
        { initState with
          settled :=
            some (Outcome.rejected
              { message := "m", isErrorWithTimings := false,
                timingPhases := none }) }
        (Event.errorEvt "x")).settled =
      some (Outcome.rejected
        { message := "m", isErrorWithTimings := false,
          timingPhases := none }) :=
  C1_settled_immutable _ _ _ _ _ rfl

/-- C1 counterexample: after the read timer rejected the promise, a
later end-of-stream event is not a no-op — it mutates the end field of
the Timings record carried (by reference) by the already published
ErrorWithTimings, even though the settled outcome itself is unchanged. -/
theorem C1_counterexample :
    (run
          { timing := true, connectionTimeout := 1000, readTimeout := 2000,
            host := "a.com" }
          trivialCodec
          [Event.socketAssigned false 10, Event.responseEvt [] (some 200) 30,
            Event.dataEvt [104], Event.readTimerFire]).settled =
        (run
          { timing := true, connectionTimeout := 1000, readTimeout := 2000,
            host := "a.com" }
          trivialCodec
          [Event.socketAssigned false 10, Event.responseEvt [] (some 200) 30,
            Event.dataEvt [104], Event.readTimerFire,
            Event.endEvt 60]).settled ∧
      (run
          { timing := true, connectionTimeout := 1000, readTimeout := 2000,
            host := "a.com" }
          trivialCodec
          [Event.socketAssigned false 10, Event.responseEvt [] (some 200) 30,
            Event.dataEvt [104],
            Event.readTimerFire]).publishedTimings.map Timings.«end» =
        some none ∧
      (run
          { timing := true, connectionTimeout := 1000, readTimeout := 2000,
            host := "a.com" }
          trivialCodec
          [Event.socketAssigned false 10, Event.responseEvt [] (some 200) 30,
            Event.dataEvt [104], Event.readTimerFire,
            Event.endEvt 60]).publishedTimings.map Timings.«end» =
        some (some 60) := by
  refine ⟨?_, ?_, ?_⟩ <;> rfl

/-- C2 counterexample: the connect event does not disarm the connection
timer; in an execution whose socket connected, a later firing of the
connection timer still destroys the socket and rejects the promise with
the connection-timeout message. -/
theorem C2_counterexample :
    (run
          { timing := false, connectionTimeout := 7, readTimeout := 9,
            host := "h" }
          trivialCodec
          [Event.socketAssigned true 5, Event.connectEvt 10]).connTimerArmed =
        true ∧
      (run
          { timing := false, connectionTimeout := 7, readTimeout := 9,
            host := "h" }
          trivialCodec
          [Event.socketAssigned true 5, Event.connectEvt 10,
            Event.connTimerFire]).settled =
        some (Outcome.rejected
          { message := "Could not connect within 7 ms to h",
            isErrorWithTimings := false, timingPhases := none }) := by
  exact ⟨rfl, rfl⟩

/-- C2 (amended): while the connection timer is armed and the promise
pending, a firing destroys the socket exactly once (the callback is
consumed, so a second firing is a no-op) and rejects the promise with
the message naming the configured connection-timeout duration and the
target host; however the connect event does not disarm the connection
timer — it stays armed, so it can still cause a connection-timeout
fault after connect. -/
theorem C2_conn_timer (cfg : ReqConfig) (codec : Codec) (s : MachineState)
    (ha : s.connTimerArmed = true) (hp : s.settled = none) :
    (step cfg codec s Event.connTimerFire).destroyCalls =
        s.destroyCalls + 1 ∧
      (step cfg codec s Event.connTimerFire).connTimerArmed = false ∧
      step cfg codec (step cfg codec s Event.connTimerFire)
          Event.connTimerFire =
        step cfg codec s Event.connTimerFire ∧
      (∃ er, (step cfg codec s Event.connTimerFire).settled =
          some (Outcome.rejected er) ∧ er.message = connMsg cfg) ∧
      (∀ now, (step cfg codec s (Event.connectEvt now)).connTimerArmed =
        s.connTimerArmed) := by
  refine ⟨?_, ?_, ?_, ?_, ?_⟩
  · simp [step, ha]
  · simp [step, ha]
  · have h2 : (step cfg codec s Event.connTimerFire).connTimerArmed =
        false := by simp [step, ha]
    conv in (step cfg codec (step cfg codec s Event.connTimerFire)
        Event.connTimerFire) => rw [step]
    rw [h2]
    simp
  · refine
      ⟨if cfg.timing then
        { message := connMsg cfg, isErrorWithTimings := true,
          timingPhases := some (makeTimingPhases s.timings) }
       else
        { message := connMsg cfg, isErrorWithTimings := false,
          timingPhases := none }, ?_, ?_⟩
    · simp only [step, ha, if_true]
      have h3 := doReject_settled_of_pending cfg
        { s with connTimerArmed := false,
                 destroyCalls := s.destroyCalls + 1 }
        (connMsg cfg) (by simp [hp])
      simpa using h3
    · cases cfg.timing <;> simp
  · intro now
    cases hc : s.connectListenerArmed <;> simp [step, hc]

/-- C2 witness: concrete firing of an armed connection timer on a
pending execution. -/
theorem C2_conn_timer_witness :
    (step
          { timing := false, connectionTimeout := 7, readTimeout := 9,
            host := "h" }
          trivialCodec { initState with connTimerArmed := true }
          Event.connTimerFire).destroyCalls =
        { initState with connTimerArmed := true }.destroyCalls + 1 ∧
      (step
          { timing := false, connectionTimeout := 7, readTimeout := 9,
            host := "h" }
          trivialCodec { initState with connTimerArmed := true }
          Event.connTimerFire).connTimerArmed = false ∧
      step
          { timing := false, connectionTimeout := 7, readTimeout := 9,
            host := "h" }
          trivialCodec
          (step
            { timing := false, connectionTimeout := 7, readTimeout := 9,
              host := "h" }
            trivialCodec { initState with connTimerArmed := true }
            Event.connTimerFire)
          Event.connTimerFire =
        step
          { timing := false, connectionTimeout := 7, readTimeout := 9,
            host := "h" }
          trivialCodec { initState with connTimerArmed := true }
          Event.connTimerFire ∧
      (∃ er, (step
            { timing := false, connectionTimeout := 7, readTimeout := 9,
              host := "h" }
            trivialCodec { initState with connTimerArmed := true }
            Event.connTimerFire).settled =
          some (Outcome.rejected er) ∧
          er.message =
            connMsg
              { timing := false, connectionTimeout := 7, readTimeout := 9,
                host := "h" }) ∧
      (∀ now, (step
          { timing := false, connectionTimeout := 7, readTimeout := 9,
            host := "h" }
          trivialCodec { initState with connTimerArmed := true }
          (Event.connectEvt now)).connTimerArmed =
        { initState with connTimerArmed := true }.connTimerArmed) :=
  C2_conn_timer
    { timing := false, connectionTimeout := 7, readTimeout := 9, host := "h" }
    trivialCodec { initState with connTimerArmed := true } rfl rfl


/-- C3: in any reachable pending execution whose read timer is armed
(reused socket, or newly connected), a read-timer firing destroys the
socket and rejects the promise with the message naming the configured
read-timeout duration and the target host, whether or not timing is
enabled; when timing is enabled, the fault carries exactly the
checkpoints recorded up to the failure point, unmodified, and the end
checkpoint is absent. -/
theorem C3_read_timeout (cfg : ReqConfig) (codec : Codec) (evs : List Event)
    (s : MachineState) (hs : s = run cfg codec evs) (hp : s.settled = none)
    (ha : s.readTimerArmed = true) :
    (step cfg codec s Event.readTimerFire).destroyCalls =
        s.destroyCalls + 1 ∧
      (step cfg codec s Event.readTimerFire).timings = s.timings ∧
      (∃ er, (step cfg codec s Event.readTimerFire).settled =
          some (Outcome.rejected er) ∧ er.message = readMsg cfg) ∧
      (cfg.timing = true →
        s.timings.«end» = none ∧
          (step cfg codec s Event.readTimerFire).settled =
            some (Outcome.rejected
              { message := readMsg cfg
                isErrorWithTimings := true
                timingPhases := some (makeTimingPhases s.timings) }) ∧
          (step cfg codec s Event.readTimerFire).publishedTimings =
            some s.timings) := by
  have hsettle0 := doReject_settled_of_pending cfg
    { s with readTimerArmed := false,
             destroyCalls := s.destroyCalls + 1 }
    (readMsg cfg) (by simp [hp])
  refine ⟨?_, ?_, ?_, ?_⟩
  · simp [step, ha]
  · simp [step, ha]
  · refine
      ⟨if cfg.timing then
        { message := readMsg cfg, isErrorWithTimings := true,
          timingPhases := some (makeTimingPhases s.timings) }
       else
        { message := readMsg cfg, isErrorWithTimings := false,
          timingPhases := none }, ?_, ?_⟩
    · simp only [step, ha, if_true]
      simpa using hsettle0
    · cases cfg.timing <;> simp
  · intro ht
    have hend : s.timings.«end» = none := by
      subst hs; exact run_pending_end_none cfg codec evs hp
    have hsettle : (step cfg codec s Event.readTimerFire).settled =
        some (Outcome.rejected
          { message := readMsg cfg
            isErrorWithTimings := true
            timingPhases := some (makeTimingPhases s.timings) }) := by
      simp only [step, ha, if_true]
      simpa [ht] using hsettle0
    refine ⟨hend, hsettle, ?_⟩
    simp only [MachineState.publishedTimings, hsettle]
    simp [step, ha]

/-- C3 witness: a reused-socket execution with timing disabled rejects
on read-timer firing with the read-timeout message, and one with timing
enabled rejects with the fault carrying the recorded checkpoints and no
end checkpoint. -/
theorem C3_read_timeout_witness :
    (∃ er, (step
          { timing := false, connectionTimeout := 1000, readTimeout := 200,
            host := "a.com" }
          trivialCodec
          (run
            { timing := false, connectionTimeout := 1000, readTimeout := 200,
              host := "a.com" }
            trivialCodec [Event.socketAssigned false 10])
          Event.readTimerFire).settled = some (Outcome.rejected er) ∧
        er.message =
          readMsg
            { timing := false, connectionTimeout := 1000, readTimeout := 200,
              host := "a.com" }) ∧
      (step
          { timing := true, connectionTimeout := 1000, readTimeout := 500,
            host := "c.com" }
          trivialCodec
          (run
            { timing := true, connectionTimeout := 1000, readTimeout := 500,
              host := "c.com" }
            trivialCodec [Event.socketAssigned false 10])
          Event.readTimerFire).settled =
        some (Outcome.rejected
          { message := readMsg
              { timing := true, connectionTimeout := 1000, readTimeout := 500,
                host := "c.com" }
            isErrorWithTimings := true
            timingPhases :=
              some (makeTimingPhases
                (run
                  { timing := true, connectionTimeout := 1000,
                    readTimeout := 500, host := "c.com" }
                  trivialCodec
                  [Event.socketAssigned false 10]).timings) }) ∧
      (run
          { timing := true, connectionTimeout := 1000, readTimeout := 500,
            host := "c.com" }
          trivialCodec
          [Event.socketAssigned false 10]).timings.«end» = none :=
  ⟨(C3_read_timeout
      { timing := false, connectionTimeout := 1000, readTimeout := 200,
        host := "a.com" }
      trivialCodec [Event.socketAssigned false 10] _ rfl rfl rfl).2.2.1,
   ((C3_read_timeout
      { timing := true, connectionTimeout := 1000, readTimeout := 500,
        host := "c.com" }
      trivialCodec [Event.socketAssigned false 10] _ rfl rfl rfl).2.2.2
      rfl).2.1,
   ((C3_read_timeout
      { timing := true, connectionTimeout := 1000, readTimeout := 500,
        host := "c.com" }
      trivialCodec [Event.socketAssigned false 10] _ rfl rfl rfl).2.2.2
      rfl).1⟩

/-- C5: an execution that is assigned a reused (non-connecting) socket
with timing enabled records lookup and connect equal to the socket
checkpoint, forever, and the derived dns and tcp phases are zero. -/
theorem C5_reused_socket_timings (cfg : ReqConfig) (codec : Codec)
    (now : Nat) (tr : List Event) (ht : cfg.timing = true) :
    (run cfg codec
        (Event.socketAssigned false now :: tr)).timings.socket = some now ∧
      (run cfg codec
        (Event.socketAssigned false now :: tr)).timings.lookup = some now ∧
      (run cfg codec
        (Event.socketAssigned false now :: tr)).timings.connect = some now ∧
      (makeTimingPhases
        (run cfg codec
          (Event.socketAssigned false now :: tr)).timings).dns = some 0 ∧
      (makeTimingPhases
        (run cfg codec
          (Event.socketAssigned false now :: tr)).timings).tcp = some 0 := by
  have hbase :
      (step cfg codec initState
          (Event.socketAssigned false now)).socketHandled = true ∧
        (step cfg codec initState
          (Event.socketAssigned false now)).lookupListenerArmed = false ∧
        (step cfg codec initState
          (Event.socketAssigned false now)).connectListenerArmed = false ∧
        (step cfg codec initState
          (Event.socketAssigned false now)).timings.socket = some now ∧
        (step cfg codec initState
          (Event.socketAssigned false now)).timings.lookup = some now ∧
        (step cfg codec initState
          (Event.socketAssigned false now)).timings.connect = some now := by
    simp [step, initState, ht]
  have hinv := foldl_inv cfg codec
    (fun s => s.socketHandled = true ∧ s.lookupListenerArmed = false ∧
      s.connectListenerArmed = false ∧ s.timings.socket = some now ∧
      s.timings.lookup = some now ∧ s.timings.connect = some now)
    (fun s e h => reused_inv_step cfg codec now s e h) tr _ hbase
  have hrun : run cfg codec (Event.socketAssigned false now :: tr) =
      List.foldl (step cfg codec)
        (step cfg codec initState (Event.socketAssigned false now)) tr := by
    simp [run]
  rw [hrun]
  obtain ⟨q1, q2, q3, q4, q5, q6⟩ := hinv
  refine ⟨q4, q5, q6, ?_, ?_⟩ <;>
    simp [makeTimingPhases, subtract, q4, q5, q6]

/-- C5 witness: a concrete reused-socket execution has lookup equal to
socket and zero dns and tcp phases. -/
theorem C5_reused_socket_timings_witness :
    (run
        { timing := true, connectionTimeout := 1000, readTimeout := 2000,
          host := "h" }
        trivialCodec
        [Event.socketAssigned false 10]).timings.lookup = some 10 ∧
      (makeTimingPhases
        (run
          { timing := true, connectionTimeout := 1000, readTimeout := 2000,
            host := "h" }
          trivialCodec [Event.socketAssigned false 10]).timings).dns =
        some 0 :=
  ⟨(C5_reused_socket_timings
      { timing := true, connectionTimeout := 1000, readTimeout := 2000,
        host := "h" }
      trivialCodec 10 [] rfl).2.1,
   (C5_reused_socket_timings
      { timing := true, connectionTimeout := 1000, readTimeout := 2000,
        host := "h" }
      trivialCodec 10 [] rfl).2.2.2.1⟩

/-- C9: on end of stream of a raw (non-piped) response in a reachable
pending execution, the promise resolves with body equal to the UTF-8
decoding of the concatenation of the received chunks in arrival order;
the tracked byte-length counter makes Buffer.concat reproduce exactly
that concatenation, and a two-byte codepoint split across two chunks
decodes to the single character. -/
theorem C9_body_aggregation (cfg : ReqConfig) (codec : Codec)
    (evs : List Event) (s : MachineState) (ctx : RespCtx) (now : Nat)
    (hs : s = run cfg codec evs) (hr : s.resp = some ctx)
    (hm : ctx.mode = BodyMode.raw) (hp : s.settled = none) :
    bufConcat ctx.chunks ctx.bufferLength = ctx.chunks.flatten ∧
      (∃ r, (step cfg codec s (Event.endEvt now)).settled =
          some (Outcome.resolved r) ∧
        r.body = utf8Decode ctx.chunks.flatten) ∧
      utf8Decode ([209] ++ [143]) = "я" := by
  have hlen : ctx.bufferLength = ctx.chunks.flatten.length := by
    subst hs; exact run_lenOK cfg codec evs ctx hr
  have hbuf : bufConcat ctx.chunks ctx.bufferLength = ctx.chunks.flatten := by
    simp [bufConcat, hlen]
  have hd : decodeBody codec ctx = Except.ok ctx.chunks.flatten := by
    simp [decodeBody, hm, hbuf]
  refine ⟨hbuf,
    ⟨{ statusCode := jsOrZero ctx.statusCode
       headers := ctx.headers
       body := utf8Decode ctx.chunks.flatten
       hasTimings := cfg.timing
       timingPhases :=
         if cfg.timing then
           some (makeTimingPhases { s.timings with «end» := some now })
         else none }, ?_, rfl⟩, by decide⟩
  simp only [step, hr, hd]
  exact doResolve_settled_of_pending _ _ (by simp [hp])

/-- C9 witness: the two bytes of the character я delivered as separate
chunks resolve to the single-character body. -/
theorem C9_body_aggregation_witness :
    ∃ r, (step
          { timing := false, connectionTimeout := 1000, readTimeout := 2000,
            host := "h" }
          trivialCodec
          (run
            { timing := false, connectionTimeout := 1000, readTimeout := 2000,
              host := "h" }
            trivialCodec
            [Event.socketAssigned false 10,
              Event.responseEvt [] (some 200) 30, Event.dataEvt [209],
              Event.dataEvt [143]])
          (Event.endEvt 60)).settled = some (Outcome.resolved r) ∧
      r.body = utf8Decode (List.flatten [[209], [143]]) :=
  (C9_body_aggregation
    { timing := false, connectionTimeout := 1000, readTimeout := 2000,
      host := "h" }
    trivialCodec
    [Event.socketAssigned false 10, Event.responseEvt [] (some 200) 30,
      Event.dataEvt [209], Event.dataEvt [143]]
    _
    { headers := [], statusCode := some 200, mode := BodyMode.raw,
      chunks := [[209], [143]], bufferLength := 2 }
    60 rfl rfl rfl rfl).2.1


/-- C6: the response handler pipes the body through the unzip decoder
exactly when content-encoding is gzip or deflate and uses the raw
stream otherwise; for a piped pending response, a payload the decoder
accepts resolves with the decoded plaintext body, and a payload the
decoder rejects ends the execution through exactly the transport-error
failure path (a rejection carrying the decoder message), never a
successful result. -/
theorem C6_content_encoding (cfg : ReqConfig) (codec : Codec)
    (s : MachineState) (ctx : RespCtx) (hp : s.settled = none)
    (hr : s.resp = some ctx) (hm : ctx.mode = BodyMode.unzip) :
    (∀ hdrs : List (String × String),
      bodyModeOf hdrs = BodyMode.unzip ↔
        (getHeader hdrs "content-encoding" = some "gzip" ∨
          getHeader hdrs "content-encoding" = some "deflate")) ∧
      (∀ hdrs sc now,
        (step cfg codec s (Event.responseEvt hdrs sc now)).resp =
          some
            { headers := hdrs
              statusCode := sc
              mode := bodyModeOf hdrs
              chunks := []
              bufferLength := 0 }) ∧
      (∀ plain now,
        codec.decompress (bufConcat ctx.chunks ctx.bufferLength) =
            Except.ok plain →
        ∃ r, (step cfg codec s (Event.endEvt now)).settled =
            some (Outcome.resolved r) ∧ r.body = utf8Decode plain) ∧
      (∀ msg now,
        codec.decompress (bufConcat ctx.chunks ctx.bufferLength) =
            Except.error msg →
        step cfg codec s (Event.endEvt now) =
            step cfg codec s (Event.errorEvt msg) ∧
          ∃ er, (step cfg codec s (Event.endEvt now)).settled =
              some (Outcome.rejected er) ∧ er.message = msg) := by
  refine ⟨?_, ?_, ?_, ?_⟩
  · intro hdrs
    constructor
    · intro hmode
      by_contra hno
      push_neg at hno
      obtain ⟨h1, h2⟩ := hno
      simp [bodyModeOf, h1, h2] at hmode
    · rintro (h | h) <;> simp [bodyModeOf, h]
  · intro hdrs sc now
    simp [step]
  · intro plain now hok
    have hd : decodeBody codec ctx = Except.ok plain := by
      simp [decodeBody, hm, hok]
    refine ⟨{ statusCode := jsOrZero ctx.statusCode
              headers := ctx.headers
              body := utf8Decode plain
              hasTimings := cfg.timing
              timingPhases :=
                if cfg.timing then
                  some (makeTimingPhases { s.timings with «end» := some now })
                else none }, ?_, rfl⟩
    simp only [step, hr, hd]
    exact doResolve_settled_of_pending _ _ (by simp [hp])
  · intro msg now herr
    have hd : decodeBody codec ctx = Except.error msg := by
      simp [decodeBody, hm, herr]
    constructor
    · simp only [step, hr, hd]
    · refine
        ⟨if cfg.timing then
          { message := msg, isErrorWithTimings := true,
            timingPhases := some (makeTimingPhases s.timings) }
         else
          { message := msg, isErrorWithTimings := false,
            timingPhases := none }, ?_, ?_⟩
      · simp only [step, hr, hd]
        exact doReject_settled_of_pending cfg s msg hp
      · cases cfg.timing <;> simp

/-- C6 witness: a concrete piped response with a decoder that accepts
the accumulated payload resolves with the plaintext body, and the same
machine rejects a payload the decoder refuses. -/
theorem C6_content_encoding_witness :
    ∃ r, (step
          { timing := false, connectionTimeout := 1000, readTimeout := 2000,
            host := "h" }
          { decompress := fun l =>
              if l = [1, 2] then Except.ok [104, 105]
              else Except.error "incorrect header check" }
          { initState with
            resp :=
              some
                { headers := [("content-encoding", "gzip")],
                  statusCode := some 200, mode := BodyMode.unzip,
                  chunks := [[1], [2]], bufferLength := 2 } }
          (Event.endEvt 60)).settled = some (Outcome.resolved r) ∧
      r.body = utf8Decode [104, 105] :=
  ((C6_content_encoding
      { timing := false, connectionTimeout := 1000, readTimeout := 2000,
        host := "h" }
      { decompress := fun l =>
          if l = [1, 2] then Except.ok [104, 105]
          else Except.error "incorrect header check" }
      { initState with
        resp :=
          some
            { headers := [("content-encoding", "gzip")],
              statusCode := some 200, mode := BodyMode.unzip,
              chunks := [[1], [2]], bufferLength := 2 } }
      { headers := [("content-encoding", "gzip")], statusCode := some 200,
        mode := BodyMode.unzip, chunks := [[1], [2]], bufferLength := 2 }
      rfl rfl rfl).2.2.1) [104, 105] 60 rfl

end Perron
